import Mathlib

/-!
Verification development for the Geminimonitor repository.

The repository is a desktop UI driving several interchangeable AI CLI
backends.  The definitions below are shallow embeddings of the relevant
TypeScript source: the capability module (`cliCapabilities.ts`), the
settings normalization (`useAppSettings.ts`), the CLI auto-detection
priority (`useCliAutoDetect.ts`), and — where the orchestration core is
not among the provided source files — models built from the specification
document (each such definition's doc comment starts with
"Modelled from the spec:").
-/

namespace GeminiMonitor

/-- The backend CLI type union `"codex" | "gemini" | "cursor" | "claude"`
from the repository's `CliType`. -/
inductive CliType where
  | codex
  | gemini
  | cursor
  | claude
deriving DecidableEq, Repr

/-- The `CliCapabilities` record shape from `cliCapabilities.ts`. -/
structure CliCapabilities where
  tier : String
  supportsBidirectionalRpc : Bool
  supportsInterrupt : Bool
  supportsApprovals : Bool
  supportsCollaborationModes : Bool
  supportsApps : Bool
  supportsMcpServers : Bool
  supportsCodexConfigSync : Bool
deriving DecidableEq, Repr

/-- Constant `FULL_CAPABILITIES` from `cliCapabilities.ts`. -/
def FULL_CAPABILITIES : CliCapabilities :=
  { tier := "full"
    supportsBidirectionalRpc := true
    supportsInterrupt := true
    supportsApprovals := true
    supportsCollaborationModes := true
    supportsApps := true
    supportsMcpServers := true
    supportsCodexConfigSync := true }

/-- Constant `COMPATIBLE_CAPABILITIES` from `cliCapabilities.ts`. -/
def COMPATIBLE_CAPABILITIES : CliCapabilities :=
  { tier := "compatible"
    supportsBidirectionalRpc := false
    supportsInterrupt := false
    supportsApprovals := false
    supportsCollaborationModes := false
    supportsApps := false
    supportsMcpServers := false
    supportsCodexConfigSync := false }

/-- Function `getCliCapabilities` from `cliCapabilities.ts`:
`cliType === "codex" ? FULL_CAPABILITIES : COMPATIBLE_CAPABILITIES`. -/
def getCliCapabilities (cliType : CliType) : CliCapabilities :=
  if cliType = CliType.codex then FULL_CAPABILITIES else COMPATIBLE_CAPABILITIES

/-- Function `getCliDisplayName` from `cliCapabilities.ts`. -/
def getCliDisplayName (cliType : CliType) : String :=
  match cliType with
  | CliType.gemini => "Gemini CLI"
  | CliType.cursor => "Cursor CLI"
  | CliType.claude => "Claude Code"
  | _ => "Agent CLI"

/-- The `DetectedClis` record consumed by `pickBestCli` in
`useCliAutoDetect.ts`: one detection flag per CLI type. -/
structure DetectedClis where
  claude : Bool
  codex : Bool
  gemini : Bool
  cursor : Bool
deriving DecidableEq, Repr

/-- Lookup `detected[cli]` for a `DetectedClis` record. -/
def DetectedClis.flag (d : DetectedClis) : CliType → Bool
  | CliType.claude => d.claude
  | CliType.codex => d.codex
  | CliType.gemini => d.gemini
  | CliType.cursor => d.cursor

/-- Constant `CLI_PRIORITY` from `useCliAutoDetect.ts`. -/
def CLI_PRIORITY : List CliType :=
  [CliType.claude, CliType.codex, CliType.gemini, CliType.cursor]

/-- Function `pickBestCli` from `useCliAutoDetect.ts`: the first CLI type in
`CLI_PRIORITY` whose detection flag is set, else `null`. -/
def pickBestCli (detected : DetectedClis) : Option CliType :=
  CLI_PRIORITY.find? (fun cli => detected.flag cli)

/-- The fields of `AppSettings` that `normalizeAppSettings` in
`useAppSettings.ts` rewrites with logic local to that file.  Fields the
function copies through unchanged via the `...settings` spread, and the
fields whose normalization is delegated to helper modules that are not
among the provided sources (`uiScale`, `fonts`, `openApp` targets), are
omitted: they do not interact with the `cliType` field. -/
structure AppSettings where
  cliType : CliType
  geminiBin : Option String
  geminiArgs : Option String
  cursorBin : Option String
  cursorArgs : Option String
  cursorVimMode : Bool
  cursorDefaultMode : String
  cursorOutputFormat : String
  cursorAttributeCommits : Bool
  cursorAttributePRs : Bool
  cursorUseHttp1 : Bool
  theme : String
deriving DecidableEq, Repr

/-- The JS idiom `value?.trim() ? value.trim() : null` used by
`normalizeAppSettings` for the bin/args fields: trim, and map an empty
result to `null`. -/
def trimToNull (value : Option String) : Option String :=
  match value with
  | none => none
  | some s => if s.trim = "" then none else some s.trim

/-- Constant `allowedThemes` from `useAppSettings.ts`. -/
def allowedThemes : List String := ["system", "light", "dark", "dim"]

/-- Constant `allowedCursorModes` from `normalizeAppSettings`. -/
def allowedCursorModes : List String := ["agent", "plan", "ask"]

/-- Constant `allowedCursorFormats` from `normalizeAppSettings`. -/
def allowedCursorFormats : List String := ["text", "json", "stream-json"]

/-- Function `normalizeAppSettings` from `useAppSettings.ts`, restricted to the
embedded fields.  The `cliType` line is the source's
`settings.cliType === "cursor" ? "cursor" : "gemini"`. -/
def normalizeAppSettings (settings : AppSettings) : AppSettings :=
  { settings with
    cliType := if settings.cliType = CliType.cursor then CliType.cursor else CliType.gemini
    geminiBin := trimToNull settings.geminiBin
    geminiArgs := trimToNull settings.geminiArgs
    cursorBin := trimToNull settings.cursorBin
    cursorArgs := trimToNull settings.cursorArgs
    cursorDefaultMode :=
      if settings.cursorDefaultMode ∈ allowedCursorModes then settings.cursorDefaultMode
      else "agent"
    cursorOutputFormat :=
      if settings.cursorOutputFormat ∈ allowedCursorFormats then settings.cursorOutputFormat
      else "text"
    theme := if settings.theme ∈ allowedThemes then settings.theme else "system" }

/-- Modelled from the spec: the acknowledgment `submit` returns to its
caller (§4.4) — the message was either dispatched immediately or queued.
The orchestration core's source is not among the provided files. -/
inductive SubmitAck where
  | dispatched
  | queued
deriving DecidableEq, Repr

/-- Modelled from the spec: the Turn Coordinator state (§4.4) — the set
of currently dispatched (Running) turns, kept as a list so that the
at-most-one-Running property is a provable invariant rather than a
typing artifact, and the FIFO queue of messages submitted while busy.
Messages are identified by naturals. -/
structure CoordinatorState where
  running : List Nat
  queue : List Nat
deriving DecidableEq, Repr

/-- Modelled from the spec: a freshly created coordinator is Idle with
an empty queue. -/
def initCoordinator : CoordinatorState := { running := [], queue := [] }

/-- Modelled from the spec: `submit(message)` (§4.4) — if Idle,
transitions to Running and dispatches immediately; if Running, appends
to the FIFO queue and returns a queued acknowledgment. -/
def submit (s : CoordinatorState) (m : Nat) : CoordinatorState × SubmitAck :=
  if s.running.isEmpty then ({ s with running := [m] }, SubmitAck.dispatched)
  else ({ s with queue := s.queue ++ [m] }, SubmitAck.queued)

/-- Modelled from the spec: on Turn completion (§4.4), if the queue is
non-empty the next message is dequeued and dispatched automatically (no
separate user action required); otherwise the coordinator returns to
Idle. -/
def completeTurn (s : CoordinatorState) : CoordinatorState :=
  match s.queue with
  | [] => { s with running := [] }
  | m :: rest => { running := [m], queue := rest }

/-- Modelled from the spec: the result of `interrupt()` — either a
Running turn was interrupted, or the call was a benign no-op (§4.4,
§5). -/
inductive InterruptResult where
  | interruptedTurn
  | benignNoop
deriving DecidableEq, Repr

/-- Modelled from the spec: `interrupt()` at the coordinator level
(§4.4) — valid only while Running (transitions to Interrupted, modelled
as clearing the running turn); interrupting an Idle coordinator is a
no-op. -/
def interruptCoordinator (s : CoordinatorState) : CoordinatorState × InterruptResult :=
  if s.running.isEmpty then (s, InterruptResult.benignNoop)
  else ({ s with running := [] }, InterruptResult.interruptedTurn)

/-- Modelled from the spec: a live Session (§3) — the coordinator state
together with whether the underlying backend process is still alive. -/
structure Session where
  coordinator : CoordinatorState
  processAlive : Bool
deriving DecidableEq, Repr

/-- Modelled from the spec: `interrupt()` at the Session level (§5) —
safe to call even if the underlying process has already exited moments
earlier (no panic, returns a benign no-op result), and a no-op on an
Idle coordinator. -/
def interrupt (sess : Session) : Session × InterruptResult :=
  if sess.coordinator.running.isEmpty || !sess.processAlive then
    (sess, InterruptResult.benignNoop)
  else
    ({ sess with coordinator := (interruptCoordinator sess.coordinator).1 },
     InterruptResult.interruptedTurn)

/-- Modelled from the spec: the UI-originated events that drive one
Session's Turn Coordinator (§4.4). -/
inductive CoordinatorEvent where
  | submitMsg (m : Nat)
  | turnComplete
  | turnInterrupt
deriving DecidableEq, Repr

/-- Modelled from the spec: one coordinator transition per event. -/
def coordinatorStep (s : CoordinatorState) : CoordinatorEvent → CoordinatorState
  | CoordinatorEvent.submitMsg m => (submit s m).1
  | CoordinatorEvent.turnComplete => completeTurn s
  | CoordinatorEvent.turnInterrupt => (interruptCoordinator s).1

/-- A coordinator state reached by running a sequence of events from
the initial Idle state. -/
def runCoordinator (events : List CoordinatorEvent) : CoordinatorState :=
  events.foldl coordinatorStep initCoordinator

/-- Modelled from the spec: the outcome of `respondToApproval` (§4.4,
§7) — resolved exactly once, or rejected with `DuplicateResponse`. -/
inductive ApprovalOutcome where
  | resolved
  | duplicateResponse
deriving DecidableEq, Repr

/-- Modelled from the spec: a Session's approval bookkeeping (§3) —
the in-flight (pending) approval request ids and the ids that have
already received their unique resolution. -/
structure ApprovalLedger where
  pending : List Nat
  resolvedIds : List Nat
deriving DecidableEq, Repr

/-- Modelled from the spec: `respondToApproval(requestId, decision)`
(§4.4) — called exactly once for an id; a second response for the same
id is rejected with `DuplicateResponse` and changes nothing. -/
def respondToApproval (ledger : ApprovalLedger) (requestId : Nat) :
    ApprovalLedger × ApprovalOutcome :=
  if requestId ∈ ledger.resolvedIds then (ledger, ApprovalOutcome.duplicateResponse)
  else
    ({ pending := ledger.pending.filter (fun i => i != requestId),
       resolvedIds := requestId :: ledger.resolvedIds },
     ApprovalOutcome.resolved)

/-- Modelled from the spec: one Session Registry entry (§4.5) — a
Thread identity bound to the identity of its spawned Process Handle. -/
structure RegistryEntry where
  threadId : Nat
  handleId : Nat
deriving DecidableEq, Repr

/-- Modelled from the spec: the Session Registry (§4.5) — the mapping
from Thread identity to live Session, with a fresh-handle counter that
increments once per actual process spawn. -/
structure SessionRegistry where
  sessions : List RegistryEntry
  nextHandleId : Nat
deriving DecidableEq, Repr

/-- The empty registry at application start. -/
def emptyRegistry : SessionRegistry := { sessions := [], nextHandleId := 0 }

/-- Modelled from the spec: `acquire(threadId)` (§4.5) — returns the
existing live Session if present; otherwise spawns a Process Handle
(allocating a fresh handle id) and registers a new Session. -/
def acquire (r : SessionRegistry) (threadId : Nat) : SessionRegistry × Nat :=
  match r.sessions.find? (fun e => e.threadId == threadId) with
  | some e => (r, e.handleId)
  | none =>
    ({ sessions := { threadId := threadId, handleId := r.nextHandleId } :: r.sessions,
       nextHandleId := r.nextHandleId + 1 },
     r.nextHandleId)

/-- Modelled from the spec: `release(threadId)` (§4.5) — tears down the
Process Handle and removes the registry entry. -/
def release (r : SessionRegistry) (threadId : Nat) : SessionRegistry :=
  { r with sessions := r.sessions.filter (fun e => !(e.threadId == threadId)) }

/-- Modelled from the spec: the registry operations, serialized (§4.5
requires concurrent `acquire` calls for one Thread to serialize via a
per-thread creation lock, so the observable behaviour is a sequential
interleaving). -/
inductive RegistryEvent where
  | acquireThread (threadId : Nat)
  | releaseThread (threadId : Nat)
deriving DecidableEq, Repr

/-- One registry transition per event. -/
def registryStep (r : SessionRegistry) : RegistryEvent → SessionRegistry
  | RegistryEvent.acquireThread t => (acquire r t).1
  | RegistryEvent.releaseThread t => release r t

/-- A registry state reached by running a sequence of events from the
empty registry. -/
def runRegistry (events : List RegistryEvent) : SessionRegistry :=
  events.foldl registryStep emptyRegistry

/-- The UI affordances gated on the capability set (spec §4.3): mid-turn
interrupt and approval response. -/
inductive AdapterOperation where
  | interruptTurn
  | respondApproval
deriving DecidableEq, Repr

/-- Whether a capability set (from `getCliCapabilities`) supports an
operation: the `supportsInterrupt` / `supportsApprovals` flags of
`cliCapabilities.ts`. -/
def operationSupported (caps : CliCapabilities) : AdapterOperation → Bool
  | AdapterOperation.interruptTurn => caps.supportsInterrupt
  | AdapterOperation.respondApproval => caps.supportsApprovals

/-- Modelled from the spec: the possible outcomes of invoking a UI
affordance against a backend (§4.3, §7) — performed, the deliberate
`CapabilityUnsupported` no-op signal, an error result, or a stuck
pending state.  The latter two exist in the outcome type precisely so
the theorem can state they never occur on the unsupported path. -/
inductive OperationOutcome where
  | performed
  | capabilityUnsupported
  | errorResult
  | stillPending
deriving DecidableEq, Repr

/-- Modelled from the spec: invoking an operation against a backend of
the given CLI type (§4.3) — the Turn Coordinator consults the
capability set first; an unsupported operation is a no-op that resolves
immediately with `CapabilityUnsupported`, never an error and never left
pending.  The supported path is abstracted: interrupt runs the Session
interrupt, approval response is reported performed. -/
def invokeOperation (cliType : CliType) (sess : Session) (op : AdapterOperation) :
    Session × OperationOutcome :=
  if operationSupported (getCliCapabilities cliType) op then
    match op with
    | AdapterOperation.interruptTurn => ((interrupt sess).1, OperationOutcome.performed)
    | AdapterOperation.respondApproval => (sess, OperationOutcome.performed)
  else (sess, OperationOutcome.capabilityUnsupported)

/-- The three per-backend configuration slots of an Adapter Binding
(spec §3): binary path, arguments, home directory. -/
inductive BindingField where
  | binPath
  | cliArgs
  | homeDir
deriving DecidableEq, Repr

/-- Modelled from the spec: the workspace-level per-CLI override fields
(the `WorkspaceInfo.settings` shape exercised by the `cliBackend.ts`
tests; the `cliBackend.ts` source itself is not among the provided
files) — one optional bin/home/args override per CLI type. -/
structure WorkspaceCliOverrides where
  codexBin : Option String
  geminiBin : Option String
  cursorBin : Option String
  claudeBin : Option String
  codexHome : Option String
  geminiHome : Option String
  cursorHome : Option String
  claudeHome : Option String
  codexArgs : Option String
  geminiArgs : Option String
  cursorArgs : Option String
  claudeArgs : Option String
deriving DecidableEq, Repr

/-- Modelled from the spec: the global active-backend default fields of
`AppSettings` read by `getActiveCliPath`/`getActiveCliArgs` (per the
`cliBackend.ts` tests) together with per-CLI home defaults. -/
structure GlobalCliDefaults where
  codexBin : Option String
  geminiBin : Option String
  cursorBin : Option String
  claudeBin : Option String
  codexHome : Option String
  geminiHome : Option String
  cursorHome : Option String
  claudeHome : Option String
  codexArgs : Option String
  geminiArgs : Option String
  cursorArgs : Option String
  claudeArgs : Option String
deriving DecidableEq, Repr

/-- Modelled from the spec: `getWorkspaceCliBinOverride` /
`getWorkspaceCliHomeOverride` / `getWorkspaceCliArgsOverride` — the
workspace override slot for one specific CLI type; a different type's
stored override is never read. -/
def workspaceOverrideField (ws : WorkspaceCliOverrides) :
    BindingField → CliType → Option String
  | BindingField.binPath, CliType.codex => ws.codexBin
  | BindingField.binPath, CliType.gemini => ws.geminiBin
  | BindingField.binPath, CliType.cursor => ws.cursorBin
  | BindingField.binPath, CliType.claude => ws.claudeBin
  | BindingField.homeDir, CliType.codex => ws.codexHome
  | BindingField.homeDir, CliType.gemini => ws.geminiHome
  | BindingField.homeDir, CliType.cursor => ws.cursorHome
  | BindingField.homeDir, CliType.claude => ws.claudeHome
  | BindingField.cliArgs, CliType.codex => ws.codexArgs
  | BindingField.cliArgs, CliType.gemini => ws.geminiArgs
  | BindingField.cliArgs, CliType.cursor => ws.cursorArgs
  | BindingField.cliArgs, CliType.claude => ws.claudeArgs

/-- Modelled from the spec: `getActiveCliPath` / `getActiveCliArgs` and
the per-CLI home default — the global default slot for one specific CLI
type. -/
def globalDefaultField (g : GlobalCliDefaults) :
    BindingField → CliType → Option String
  | BindingField.binPath, CliType.codex => g.codexBin
  | BindingField.binPath, CliType.gemini => g.geminiBin
  | BindingField.binPath, CliType.cursor => g.cursorBin
  | BindingField.binPath, CliType.claude => g.claudeBin
  | BindingField.homeDir, CliType.codex => g.codexHome
  | BindingField.homeDir, CliType.gemini => g.geminiHome
  | BindingField.homeDir, CliType.cursor => g.cursorHome
  | BindingField.homeDir, CliType.claude => g.claudeHome
  | BindingField.cliArgs, CliType.codex => g.codexArgs
  | BindingField.cliArgs, CliType.gemini => g.geminiArgs
  | BindingField.cliArgs, CliType.cursor => g.cursorArgs
  | BindingField.cliArgs, CliType.claude => g.claudeArgs

/-- Modelled from the spec: Adapter Binding resolution (§3) — a chain
workspace-level override → global active-backend default → built-in
fallback.  The built-in fallback value for the (field, type) slot is
not in the provided sources and is passed in as `fallback`. -/
def resolveBinding (ws : WorkspaceCliOverrides) (g : GlobalCliDefaults)
    (fallback : String) (field : BindingField) (cliType : CliType) : String :=
  match workspaceOverrideField ws field cliType with
  | some v => v
  | none =>
    match globalDefaultField g field cliType with
    | some v => v
    | none => fallback

/-- Modelled from the spec: storing a workspace override for one CLI
type (the `withWorkspaceCliHomeOverride`-style patches of the
`cliBackend.ts` tests) — only that type's slot is written. -/
def setWorkspaceOverride (ws : WorkspaceCliOverrides) :
    BindingField → CliType → String → WorkspaceCliOverrides
  | BindingField.binPath, CliType.codex, v => { ws with codexBin := some v }
  | BindingField.binPath, CliType.gemini, v => { ws with geminiBin := some v }
  | BindingField.binPath, CliType.cursor, v => { ws with cursorBin := some v }
  | BindingField.binPath, CliType.claude, v => { ws with claudeBin := some v }
  | BindingField.homeDir, CliType.codex, v => { ws with codexHome := some v }
  | BindingField.homeDir, CliType.gemini, v => { ws with geminiHome := some v }
  | BindingField.homeDir, CliType.cursor, v => { ws with cursorHome := some v }
  | BindingField.homeDir, CliType.claude, v => { ws with claudeHome := some v }
  | BindingField.cliArgs, CliType.codex, v => { ws with codexArgs := some v }
  | BindingField.cliArgs, CliType.gemini, v => { ws with geminiArgs := some v }
  | BindingField.cliArgs, CliType.cursor, v => { ws with cursorArgs := some v }
  | BindingField.cliArgs, CliType.claude, v => { ws with claudeArgs := some v }

/-- The workspace-override fixture of the `cliBackend.ts` tests
(`workspaceFixture.settings`). -/
def workspaceFixture : WorkspaceCliOverrides :=
  { codexBin := some "codex-override"
    geminiBin := some "gemini-override"
    cursorBin := some "cursor-override"
    claudeBin := some "claude-override"
    codexHome := some ".codex-home"
    geminiHome := some ".gemini-home"
    cursorHome := some ".cursor-home"
    claudeHome := some ".claude-home"
    codexArgs := some "--codex-args"
    geminiArgs := some "--gemini-args"
    cursorArgs := some "--cursor-args"
    claudeArgs := some "--claude-args" }

/-- The global-defaults fixture of the `cliBackend.ts` tests
(`baseSettings`), with no home defaults set. -/
def globalFixture : GlobalCliDefaults :=
  { codexBin := some "codex"
    geminiBin := some "gemini"
    cursorBin := some "cursor"
    claudeBin := some "claude"
    codexHome := none
    geminiHome := none
    cursorHome := none
    claudeHome := none
    codexArgs := some "--codex"
    geminiArgs := some "--gemini"
    cursorArgs := some "--cursor"
    claudeArgs := some "--claude" }

end GeminiMonitor

namespace GeminiMonitor

/-- C1: `getCliCapabilities` returns the tier-"full" record with every
capability flag true for the type `codex`, and the tier-"compatible"
record with every capability flag false for each of the other types
`gemini`, `cursor`, `claude`. -/
theorem c1_getCliCapabilities_spec :
    getCliCapabilities CliType.codex = FULL_CAPABILITIES ∧
    FULL_CAPABILITIES.tier = "full" ∧
    FULL_CAPABILITIES.supportsBidirectionalRpc = true ∧
    FULL_CAPABILITIES.supportsInterrupt = true ∧
    FULL_CAPABILITIES.supportsApprovals = true ∧
    FULL_CAPABILITIES.supportsCollaborationModes = true ∧
    FULL_CAPABILITIES.supportsApps = true ∧
    FULL_CAPABILITIES.supportsMcpServers = true ∧
    FULL_CAPABILITIES.supportsCodexConfigSync = true ∧
    getCliCapabilities CliType.gemini = COMPATIBLE_CAPABILITIES ∧
    getCliCapabilities CliType.cursor = COMPATIBLE_CAPABILITIES ∧
    getCliCapabilities CliType.claude = COMPATIBLE_CAPABILITIES ∧
    COMPATIBLE_CAPABILITIES.tier = "compatible" ∧
    COMPATIBLE_CAPABILITIES.supportsBidirectionalRpc = false ∧
    COMPATIBLE_CAPABILITIES.supportsInterrupt = false ∧
    COMPATIBLE_CAPABILITIES.supportsApprovals = false ∧
    COMPATIBLE_CAPABILITIES.supportsCollaborationModes = false ∧
    COMPATIBLE_CAPABILITIES.supportsApps = false ∧
    COMPATIBLE_CAPABILITIES.supportsMcpServers = false ∧
    COMPATIBLE_CAPABILITIES.supportsCodexConfigSync = false := by
  refine ⟨rfl, rfl, rfl, rfl, rfl, rfl, rfl, rfl, rfl, ?_, ?_, ?_,
    rfl, rfl, rfl, rfl, rfl, rfl, rfl, rfl⟩ <;> rfl

/-- C10: `pickBestCli` returns the first CLI type in the fixed priority
order claude, codex, gemini, cursor whose detected flag is true, and
`none` when none of the four is detected. -/
theorem c10_pickBestCli_spec (d : DetectedClis) :
    pickBestCli d =
      (if d.claude then some CliType.claude
       else if d.codex then some CliType.codex
       else if d.gemini then some CliType.gemini
       else if d.cursor then some CliType.cursor
       else none) := by
  cases d with
  | mk cl co ge cu => cases cl <;> cases co <;> cases ge <;> cases cu <;> rfl

/-- Each coordinator transition preserves the bound of at most one
Running turn. -/
theorem coordinatorStep_running_le (s : CoordinatorState) (e : CoordinatorEvent)
    (h : s.running.length ≤ 1) : (coordinatorStep s e).running.length ≤ 1 := by
  cases e with
  | submitMsg m =>
    simp only [coordinatorStep, submit]
    split
    · simp
    · simpa using h
  | turnComplete =>
    simp only [coordinatorStep, completeTurn]
    cases hq : s.queue <;> simp
  | turnInterrupt =>
    simp only [coordinatorStep, interruptCoordinator]
    split
    · simpa using h
    · simp

/-- The at-most-one-Running bound is preserved along any event
sequence. -/
theorem foldl_coordinatorStep_running_le (events : List CoordinatorEvent) :
    ∀ s : CoordinatorState, s.running.length ≤ 1 →
      (events.foldl coordinatorStep s).running.length ≤ 1 := by
  induction events with
  | nil => intro s h; simpa using h
  | cons e es ih => intro s h; exact ih _ (coordinatorStep_running_le s e h)

/-- C2: in every reachable coordinator state at most one Turn is
Running, and submitting while a turn is Running always yields a queued
acknowledgment, appends the message to the FIFO queue, and never
dispatches a second concurrent turn (the Running set is unchanged). -/
theorem c2_at_most_one_running (events : List CoordinatorEvent) (m : Nat) :
    (runCoordinator events).running.length ≤ 1 ∧
    ((runCoordinator events).running ≠ [] →
      (submit (runCoordinator events) m).2 = SubmitAck.queued ∧
      (submit (runCoordinator events) m).1.running = (runCoordinator events).running ∧
      (submit (runCoordinator events) m).1.queue = (runCoordinator events).queue ++ [m]) := by
  refine ⟨foldl_coordinatorStep_running_le events initCoordinator (by simp [initCoordinator]), ?_⟩
  intro h
  have he : (runCoordinator events).running.isEmpty = false := by
    cases hr : (runCoordinator events).running with
    | nil => exact absurd hr h
    | cons a l => rfl
  simp [submit, he]

/-- Witness for C2 at the concrete reachable state after submitting
message 0 from Idle. -/
theorem c2_at_most_one_running_witness :
    (runCoordinator [CoordinatorEvent.submitMsg 0]).running ≠ [] ∧
    ((runCoordinator [CoordinatorEvent.submitMsg 0]).running.length ≤ 1 ∧
     (submit (runCoordinator [CoordinatorEvent.submitMsg 0]) 1).2 = SubmitAck.queued ∧
     (submit (runCoordinator [CoordinatorEvent.submitMsg 0]) 1).1.running =
       (runCoordinator [CoordinatorEvent.submitMsg 0]).running ∧
     (submit (runCoordinator [CoordinatorEvent.submitMsg 0]) 1).1.queue =
       (runCoordinator [CoordinatorEvent.submitMsg 0]).queue ++ [1]) :=
  ⟨by decide,
   (c2_at_most_one_running [CoordinatorEvent.submitMsg 0] 1).1,
   (c2_at_most_one_running [CoordinatorEvent.submitMsg 0] 1).2 (by decide)⟩

/-- C3: submitting messages `a` then `b` while a turn is Running queues
both in order, and when the current turn resolves `completeTurn`
automatically dispatches `a` first and then `b` — dequeue order equals
submission order, with the dispatch performed by turn completion itself
rather than any separate user action. -/
theorem c3_fifo_order (s : CoordinatorState) (a b : Nat)
    (h1 : s.running ≠ []) (h2 : s.queue = []) :
    (submit s a).2 = SubmitAck.queued ∧
    (submit (submit s a).1 b).2 = SubmitAck.queued ∧
    completeTurn (submit (submit s a).1 b).1 =
      { running := [a], queue := [b] } ∧
    completeTurn (completeTurn (submit (submit s a).1 b).1) =
      { running := [b], queue := [] } := by
  have he : s.running.isEmpty = false := by
    cases hr : s.running with
    | nil => exact absurd hr h1
    | cons x l => rfl
  simp [submit, completeTurn, he, h2]

/-- Witness for C3 at a concrete busy coordinator. -/
theorem c3_fifo_order_witness :
    ((⟨[7], []⟩ : CoordinatorState).running ≠ [] ∧
     (⟨[7], []⟩ : CoordinatorState).queue = []) ∧
    ((submit (⟨[7], []⟩ : CoordinatorState) 1).2 = SubmitAck.queued ∧
     (submit (submit (⟨[7], []⟩ : CoordinatorState) 1).1 2).2 = SubmitAck.queued ∧
     completeTurn (submit (submit (⟨[7], []⟩ : CoordinatorState) 1).1 2).1 =
       { running := [1], queue := [2] } ∧
     completeTurn (completeTurn (submit (submit (⟨[7], []⟩ : CoordinatorState) 1).1 2).1) =
       { running := [2], queue := [] }) :=
  ⟨⟨by decide, rfl⟩, c3_fifo_order ⟨[7], []⟩ 1 2 (by decide) rfl⟩

/-- C5: the first `respondToApproval` for a not-yet-resolved request id
resolves it; a second call with the same id fails with
`DuplicateResponse` and leaves all state unchanged. -/
theorem c5_approval_idempotent (ledger : ApprovalLedger) (requestId : Nat)
    (h : requestId ∉ ledger.resolvedIds) :
    (respondToApproval ledger requestId).2 = ApprovalOutcome.resolved ∧
    (respondToApproval (respondToApproval ledger requestId).1 requestId).2 =
      ApprovalOutcome.duplicateResponse ∧
    (respondToApproval (respondToApproval ledger requestId).1 requestId).1 =
      (respondToApproval ledger requestId).1 := by
  simp [respondToApproval, h]

/-- Witness for C5 at a concrete ledger with one pending approval. -/
theorem c5_approval_idempotent_witness :
    (5 ∉ (⟨[5], []⟩ : ApprovalLedger).resolvedIds) ∧
    ((respondToApproval (⟨[5], []⟩ : ApprovalLedger) 5).2 = ApprovalOutcome.resolved ∧
     (respondToApproval (respondToApproval (⟨[5], []⟩ : ApprovalLedger) 5).1 5).2 =
       ApprovalOutcome.duplicateResponse ∧
     (respondToApproval (respondToApproval (⟨[5], []⟩ : ApprovalLedger) 5).1 5).1 =
       (respondToApproval (⟨[5], []⟩ : ApprovalLedger) 5).1) :=
  ⟨by decide, c5_approval_idempotent ⟨[5], []⟩ 5 (by decide)⟩

/-- C6: calling `interrupt()` on a Session whose coordinator is Idle or
whose process has already exited returns the benign no-op result and
leaves the Session completely unchanged (no exception is modelled: the
function is total). -/
theorem c6_interrupt_noop (sess : Session)
    (h : sess.coordinator.running = [] ∨ sess.processAlive = false) :
    interrupt sess = (sess, InterruptResult.benignNoop) := by
  cases h with
  | inl h' => simp [interrupt, h']
  | inr h' => simp [interrupt, h']

/-- Witness for C6 at a concrete Idle Session with a live process. -/
theorem c6_interrupt_noop_witness :
    ((⟨⟨[], []⟩, true⟩ : Session).coordinator.running = [] ∨
     (⟨⟨[], []⟩, true⟩ : Session).processAlive = false) ∧
    interrupt ⟨⟨[], []⟩, true⟩ = (⟨⟨[], []⟩, true⟩, InterruptResult.benignNoop) :=
  ⟨Or.inl rfl, c6_interrupt_noop ⟨⟨[], []⟩, true⟩ (Or.inl rfl)⟩

/-- Each registry transition preserves distinctness of the Thread
identities of the registered Sessions. -/
theorem registryStep_pairwise (r : SessionRegistry) (e : RegistryEvent)
    (h : r.sessions.Pairwise (fun a b => a.threadId ≠ b.threadId)) :
    (registryStep r e).sessions.Pairwise (fun a b => a.threadId ≠ b.threadId) := by
  cases e with
  | acquireThread t =>
    simp only [registryStep, acquire]
    cases hf : r.sessions.find? (fun e => e.threadId == t) with
    | some entry => exact h
    | none =>
      refine List.Pairwise.cons ?_ h
      intro b hb
      have hb' := List.find?_eq_none.mp hf b hb
      simp only [beq_iff_eq] at hb'
      exact fun hEq => hb' hEq.symm
  | releaseThread t =>
    simp only [registryStep, release]
    exact h.sublist (List.filter_sublist _)

/-- Thread-identity distinctness is preserved along any event
sequence. -/
theorem foldl_registryStep_pairwise (events : List RegistryEvent) :
    ∀ r : SessionRegistry, r.sessions.Pairwise (fun a b => a.threadId ≠ b.threadId) →
      (events.foldl registryStep r).sessions.Pairwise (fun a b => a.threadId ≠ b.threadId) := by
  induction events with
  | nil => intro r h; simpa using h
  | cons e es ih => intro r h; exact ih _ (registryStep_pairwise r e h)

/-- A second `acquire` for the same Thread identity returns the
existing Session unchanged: same registry (so no new Process Handle is
spawned — `nextHandleId` does not advance) and the same handle id. -/
theorem acquire_idem (r : SessionRegistry) (t : Nat) :
    acquire (acquire r t).1 t = ((acquire r t).1, (acquire r t).2) := by
  cases hf : r.sessions.find? (fun e => e.threadId == t) with
  | some entry => simp [acquire, hf]
  | none =>
    have hcons : (({ threadId := t, handleId := r.nextHandleId } : RegistryEntry)
        :: r.sessions).find? (fun e => e.threadId == t) =
        some { threadId := t, handleId := r.nextHandleId } :=
      List.find?_cons_of_pos _ (by simp)
    simp [acquire, hf, hcons]

/-- C4: every reachable Session Registry state has at most one live
Session per Thread identity (all registered Thread ids are pairwise
distinct), and a second `acquire` for the same Thread identity returns
the existing live Session without creating a second Process Handle
(the registry, including its handle counter, is unchanged). -/
theorem c4_registry_unique (events : List RegistryEvent) (t : Nat) :
    (runRegistry events).sessions.Pairwise (fun a b => a.threadId ≠ b.threadId) ∧
    acquire (acquire (runRegistry events) t).1 t =
      ((acquire (runRegistry events) t).1, (acquire (runRegistry events) t).2) :=
  ⟨foldl_registryStep_pairwise events emptyRegistry (by simp [emptyRegistry]),
   acquire_idem (runRegistry events) t⟩

/-- C7: every non-codex backend is compatible-tier and supports neither
interrupt nor approval response, and invoking an operation the
capability set does not support is not an error: it resolves
immediately as a no-op with the `CapabilityUnsupported` signal, leaving
the Session unchanged — never an error result or a stuck pending
state. -/
theorem c7_capability_unsupported (cliType : CliType) (op : AdapterOperation)
    (sess : Session) :
    (cliType ≠ CliType.codex → operationSupported (getCliCapabilities cliType) op = false) ∧
    (operationSupported (getCliCapabilities cliType) op = false →
      invokeOperation cliType sess op = (sess, OperationOutcome.capabilityUnsupported)) := by
  constructor
  · intro h
    cases cliType <;> cases op <;> first | (exact absurd rfl h) | rfl
  · intro h
    simp [invokeOperation, h]

/-- Witness for C7: interrupt invoked against a gemini backend with a
running turn and live process resolves as `CapabilityUnsupported`. -/
theorem c7_capability_unsupported_witness :
    (CliType.gemini ≠ CliType.codex) ∧
    operationSupported (getCliCapabilities CliType.gemini) AdapterOperation.interruptTurn
      = false ∧
    invokeOperation CliType.gemini ⟨⟨[0], []⟩, true⟩ AdapterOperation.interruptTurn =
      (⟨⟨[0], []⟩, true⟩, OperationOutcome.capabilityUnsupported) := by
  have h := c7_capability_unsupported CliType.gemini AdapterOperation.interruptTurn
    ⟨⟨[0], []⟩, true⟩
  exact ⟨by decide, h.1 (by decide), h.2 (h.1 (by decide))⟩

/-- C8: for every active CLI type and every binding slot (binary path,
arguments, home directory) the Adapter Binding resolves from the chain
workspace-level override → global active-backend default → built-in
fallback, and an override stored for a different CLI type is never
returned for the active one. -/
theorem c8_binding_resolution (ws : WorkspaceCliOverrides) (g : GlobalCliDefaults)
    (fallback v : String) (field : BindingField) (t t' : CliType) (hne : t' ≠ t) :
    (∀ b, workspaceOverrideField ws field t = some b →
      resolveBinding ws g fallback field t = b) ∧
    (workspaceOverrideField ws field t = none →
      ∀ b, globalDefaultField g field t = some b →
        resolveBinding ws g fallback field t = b) ∧
    (workspaceOverrideField ws field t = none → globalDefaultField g field t = none →
      resolveBinding ws g fallback field t = fallback) ∧
    workspaceOverrideField (setWorkspaceOverride ws field t' v) field t =
      workspaceOverrideField ws field t := by
  refine ⟨?_, ?_, ?_, ?_⟩
  · intro b hb; simp [resolveBinding, hb]
  · intro hw b hb; simp [resolveBinding, hw, hb]
  · intro hw hg; simp [resolveBinding, hw, hg]
  · cases field <;> cases t <;> cases t' <;> first | (exact absurd rfl hne) | rfl

/-- Witness for C8 at the test fixtures: the codex binary resolves to
the workspace override, and storing a gemini override does not change
what is returned for codex. -/
theorem c8_binding_resolution_witness :
    (CliType.gemini ≠ CliType.codex) ∧
    workspaceOverrideField workspaceFixture BindingField.binPath CliType.codex =
      some "codex-override" ∧
    resolveBinding workspaceFixture globalFixture "codex" BindingField.binPath CliType.codex =
      "codex-override" ∧
    workspaceOverrideField
        (setWorkspaceOverride workspaceFixture BindingField.binPath CliType.gemini "leak")
        BindingField.binPath CliType.codex = some "codex-override" := by
  have h := c8_binding_resolution workspaceFixture globalFixture "codex" "leak"
    BindingField.binPath CliType.codex CliType.gemini (by decide)
  refine ⟨by decide, rfl, h.1 "codex-override" rfl, ?_⟩
  rw [h.2.2.2]
  rfl

/-- C9: `normalizeAppSettings` maps the `cliType` field to `cursor`
exactly when the input's `cliType` is `cursor`, and to `gemini` in every
other case — in particular the valid CLI types `codex` and `claude` are
silently mapped to `gemini`. -/
theorem c9_normalizeAppSettings_cliType (s : AppSettings) :
    (normalizeAppSettings s).cliType =
      (if s.cliType = CliType.cursor then CliType.cursor else CliType.gemini) :=
  rfl

end GeminiMonitor
